import Mathlib

/-!
Verification of the foundry-vtt-types repository slice consisting of the two
ambient TypeScript declaration files

  * src/foundry/client/data/documents/scene.d.mts   (the Scene document class,
    the SceneDimensions interface and the ThumbnailCreationData interface), and
  * the BasePackage declaration file (the BasePackage data-model class, its
    schema type aliases and the custom SchemaField subclasses).

Both files are `.d.mts` ambient declaration files: every class member is a
bare signature and carries no body.  The shallow embedding therefore models
the declarations themselves: a small grammar of the TypeScript type
expressions the files use, and the member lists, heritage clauses, interface
fields and schema aliases transcribed from the source.  Types that no claim
inspects are kept as opaque reference strings transcribing the source text
(with the TS quotes and braces of those snippets omitted, since only their
identity matters); multi-field inline object types are modelled as
intersections of one-field object types, which is how TypeScript treats them
up to assignability.
-/

/-- The grammar of TypeScript type expressions used by the two declaration
files.  `ref` is a reference to a named type written as in the source;
`strLit` a string literal type; `tvar` a type-parameter reference;
`indexedThis p` is the indexed access type on this with property p;
`indexedOf n p` the indexed access on the named type n; `retOfThisMember m`
is the ReturnType of the member m of this, and `retOfMemberOf n m` the
ReturnType of member m of the named type n; `condExtends a b t f` is the
conditional type a extends b then t else f; `objField n t d` a one-field
inline object type whose field n of type t carries the doc comment d. -/
inductive TSType where
  | ref : String → TSType
  | strLit : String → TSType
  | tvar : String → TSType
  | thisTy : TSType
  | indexedThis : String → TSType
  | indexedOf : String → String → TSType
  | boolLit : Bool → TSType
  | promiseOf : TSType → TSType
  | retOfThisMember : String → TSType
  | retOfMemberOf : String → String → TSType
  | condExtends : TSType → TSType → TSType → TSType → TSType
  | neverTy : TSType
  | objField : String → TSType → String → TSType
  | interTy : TSType → TSType → TSType
  | unionTy : TSType → TSType → TSType
  | inexactPartialOf : TSType → TSType
  | deepPartialOf : TSType → TSType
  | optionalTy : TSType → TSType
  deriving DecidableEq

/-- A value parameter of a declared method: name, declared type, and whether
the source marks it optional with a question mark. -/
structure Param where
  name : String
  ty : TSType
  optional : Bool
  deriving DecidableEq

/-- A type parameter of a declared method: name, constraint (the `extends`
clause) and default argument when the source gives one. -/
structure TypeParam where
  name : String
  constraintTy : TSType
  defaultTy : Option TSType
  deriving DecidableEq

/-- The kind of a class member as the source declares it. -/
inductive MemberKind where
  | fieldM | getter | method
  deriving DecidableEq, BEq

/-- One member of a declared class.  `retTy` is the declared type: the return
type for methods, the value type for fields and getters.  Both source files
are `.d.mts` ambient declaration files, in which a member can never carry a
body, so `hasBody` is transcribed as false for every member; it is kept as
data so that the signature-only character of the repository is stated about
the transcription rather than assumed.  `doc` transcribes the member's doc
comment where a claim reads it, else it is empty. -/
structure Member where
  name : String
  kind : MemberKind
  isStatic : Bool
  isProtected : Bool
  isOverride : Bool
  tparams : List TypeParam
  params : List Param
  retTy : TSType
  hasBody : Bool
  doc : String
  deriving DecidableEq

/-- The heritage clause of a declared class: either a mixin application
`Mixin(Base)` naming the mixin and the base it is applied to, or a plain
base reference with its type arguments. -/
inductive Heritage where
  | mixinApp : String → String → Heritage
  | baseApp : String → List TSType → Heritage
  deriving DecidableEq

/-- A class declaration: its name, heritage clause and member list. -/
structure ClassDecl where
  name : String
  heritage : Heritage
  members : List Member
  deriving DecidableEq

/-- A field of an interface or of a schema type alias, with its doc comment. -/
structure FieldDecl where
  name : String
  ty : TSType
  doc : String
  deriving DecidableEq

/-- An interface declaration. -/
structure InterfaceDecl where
  name : String
  extendsName : Option String
  fields : List FieldDecl
  deriving DecidableEq

/-- A schema-shaped type alias (the aliases of the BasePackage namespace). -/
structure SchemaDecl where
  name : String
  entries : List FieldDecl
  deriving DecidableEq

/-- A required parameter. -/
def pReq (n : String) (t : TSType) : Param := ⟨n, t, false⟩

/-- An optional parameter (written with a question mark in the source). -/
def pOpt (n : String) (t : TSType) : Param := ⟨n, t, true⟩

/-- A public instance member that is only a signature, as every member of a
`.d.mts` file is. -/
def sig (n : String) (k : MemberKind) (ps : List Param) (t : TSType) : Member :=
  { name := n, kind := k, isStatic := false, isProtected := false,
    isOverride := false, tparams := [], params := ps, retTy := t,
    hasBody := false, doc := "" }

/-- Member list of the Scene class, transcribed in source order from
scene.d.mts lines 12-175. -/
def sceneMembers : List Member := [
  sig "_viewPosition" .fieldM [] (.ref "CanvasViewPosition"),
  { sig "_view" .fieldM [] (.indexedThis "active") with isProtected := true },
  sig "dimensions" .fieldM [] (.retOfThisMember "getDimensions"),
  sig "thumbnail" .getter [] (.indexedThis "thumb"),
  sig "isView" .getter [] (.ref "boolean"),
  sig "activate" .method [] (.promiseOf (.unionTy .thisTy (.ref "undefined"))),
  sig "view" .method [] (.promiseOf (.unionTy .thisTy (.ref "undefined"))),
  { sig "clone" .method
      [pOpt "createData" (.ref "foundry.documents.BaseScene.ConstructorData"),
       pOpt "context" (.inexactPartialOf (.interTy
          (.interTy
            (.objField "save" (.tvar "Save")
              "Save the clone to the World database? Default false.")
            (.objField "keepId" (.ref "boolean")
              "Keep the same ID of the original document. Default false."))
          (.ref "DocumentConstructionContext")))]
      (.condExtends (.tvar "Save") (.boolLit true) (.promiseOf .thisTy) .thisTy)
    with
    isOverride := true,
    tparams := [⟨"Save", .ref "boolean", some (.boolLit false)⟩] },
  { sig "reset" .method [] (.ref "void") with isOverride := true },
  { sig "prepareBaseData" .method [] (.ref "void") with isOverride := true },
  { sig "getDimensions" .method [] (.ref "SceneDimensions") with
    doc := "Get the Canvas dimensions which would be used to display this Scene. Apply padding to enlarge the playable space and round to the nearest 2x grid size to ensure symmetry. The rounding accomplishes that the padding buffer around the map always contains whole grid spaces." },
  { sig "_onClickDocumentLink" .method [pReq "event" (.ref "MouseEvent")]
      (.ref "unknown") with isOverride := true },
  { sig "_preCreate" .method
      [pReq "data" (.ref "foundry.documents.BaseScene.ConstructorData"),
       pReq "options" (.ref "DocumentModificationOptions"),
       pReq "user" (.ref "foundry.documents.BaseUser")]
      (.promiseOf (.ref "void")) with
    isProtected := true, isOverride := true },
  { sig "_onCreate" .method
      [pReq "data" (.indexedThis "_source"),
       pReq "options" (.ref "DocumentModificationOptions"),
       pReq "userId" (.ref "string")]
      (.ref "void") with
    isProtected := true, isOverride := true },
  { sig "_preUpdate" .method
      [pReq "changed" (.ref "foundry.documents.BaseScene.ConstructorData"),
       pReq "options" (.ref "DocumentModificationOptions"),
       pReq "user" (.ref "foundry.documents.BaseUser")]
      (.promiseOf (.ref "void")) with
    isProtected := true, isOverride := true },
  { sig "_repositionObject" .method
      [pReq "sceneUpdateData" (.ref "foundry.documents.BaseScene.ConstructorData")]
      (.ref "foundry.documents.BaseScene.ConstructorData") with
    isProtected := true },
  { sig "_onUpdate" .method
      [pReq "changed" (.interTy (.deepPartialOf (.indexedOf "Scene" "_source"))
          (.ref "Record<string, unknown>")),
       pReq "options" (.ref "DocumentModificationOptions"),
       pReq "userId" (.ref "string")]
      (.ref "void") with
    isProtected := true, isOverride := true },
  { sig "_preDelete" .method
      [pReq "options" (.ref "DocumentModificationOptions"),
       pReq "user" (.ref "foundry.documents.BaseUser")]
      (.promiseOf (.ref "void")) with
    isProtected := true, isOverride := true },
  { sig "_onDelete" .method
      [pReq "options" (.ref "DocumentModificationOptions"),
       pReq "userId" (.ref "string")]
      (.ref "void") with
    isProtected := true, isOverride := true },
  { sig "_onActivate" .method [pReq "active" (.ref "boolean")]
      (.unionTy (.retOfThisMember "view") (.retOfMemberOf "Canvas" "draw")) with
    isProtected := true },
  { sig "_preCreateDescendantDocuments" .method
      [pReq "parent" (.ref "ClientDocument"), pReq "collection" (.ref "string"),
       pReq "data" (.ref "unknown[]"),
       pReq "options" (.ref "DocumentModificationOptions"),
       pReq "userId" (.ref "string")]
      (.ref "void") with isOverride := true },
  { sig "_preUpdateDescendantDocuments" .method
      [pReq "parent" (.ref "ClientDocument"), pReq "collection" (.ref "string"),
       pReq "changes" (.ref "unknown[]"),
       pReq "options" (.ref "DocumentModificationOptions"),
       pReq "userId" (.ref "string")]
      (.ref "void") with isOverride := true },
  { sig "_preDeleteDescendantDocuments" .method
      [pReq "parent" (.ref "ClientDocument"), pReq "collection" (.ref "string"),
       pReq "ids" (.ref "string[]"),
       pReq "options" (.ref "DocumentModificationOptions"),
       pReq "userId" (.ref "string")]
      (.ref "void") with isOverride := true },
  { sig "_onUpdateDescendantDocuments" .method
      [pReq "parent" (.ref "ClientDocument"), pReq "collection" (.ref "string"),
       pReq "documents" (.ref "ClientDocument[]"),
       pReq "changes" (.ref "unknown[]"),
       pReq "options" (.ref "DocumentModificationOptions"),
       pReq "userId" (.ref "string")]
      (.ref "void") with isOverride := true },
  { sig "toCompendium" .method
      [pOpt "pack" (.unionTy (.unionTy
          (.ref "CompendiumCollection<CompendiumCollection.Metadata>")
          (.ref "null")) (.ref "undefined")),
       pOpt "options" (.unionTy (.ref "ClientDocument.CompendiumExportOptions")
          (.ref "undefined"))]
      (.interTy (.ref "Omit<Scene[_source], _id | folder | permission>")
        (.optionalTy (.objField "permission"
          (.condExtends (.ref "Scene") (.ref "(toObject(): infer U)")
            (.tvar "U") .neverTy) ""))) with isOverride := true },
  sig "createThumbnail" .method
    [pOpt "data" (.inexactPartialOf (.ref "ThumbnailCreationData"))]
    (.ref "ReturnType<(typeof ImageHelper)[createThumbnail]>")]

/-- The Scene class declaration, scene.d.mts line 12: it extends the mixin
application ClientDocumentMixin(foundry.documents.BaseScene). -/
def sceneClass : ClassDecl :=
  { name := "Scene",
    heritage := .mixinApp "ClientDocumentMixin" "foundry.documents.BaseScene",
    members := sceneMembers }

/-- The SceneDimensions interface, scene.d.mts lines 177-213, in source
order with the doc comment of each field. -/
def sceneDimensionsInterface : InterfaceDecl :=
  { name := "SceneDimensions", extendsName := none, fields := [
      ⟨"width", .ref "number", "The width of the canvas."⟩,
      ⟨"height", .ref "number", "The height of the canvas."⟩,
      ⟨"size", .ref "number", "The grid size."⟩,
      ⟨"rect", .ref "Rectangle", "The canvas rectangle."⟩,
      ⟨"sceneX", .ref "number",
        "The X coordinate of the scene rectangle within the larger canvas."⟩,
      ⟨"sceneY", .ref "number",
        "The Y coordinate of the scene rectangle within the larger canvas."⟩,
      ⟨"sceneWidth", .ref "number", "The width of the scene."⟩,
      ⟨"sceneHeight", .ref "number", "The height of the scene."⟩,
      ⟨"sceneRect", .ref "Rectangle", "The scene rectangle."⟩,
      ⟨"distance", .ref "number",
        "The number of distance units in a single grid space."⟩,
      ⟨"ratio", .ref "number", "The aspect ratio of the scene rectangle."⟩,
      ⟨"maxR", .ref "number",
        "The length of the longest line that can be drawn on the canvas."⟩] }

/-- The ThumbnailCreationData interface, scene.d.mts lines 216-246. -/
def thumbnailCreationDataInterface : InterfaceDecl :=
  { name := "ThumbnailCreationData",
    extendsName := some "ImageHelper.TextureToImageOptions",
    fields := [
      ⟨"img", .ref "string",
        "A background image to use for thumbnail creation, otherwise the current scene background is used."⟩,
      ⟨"width", .ref "number", "The desired thumbnail width. Default is 300px"⟩,
      ⟨"height", .ref "number", "The desired thumbnail height. Default is 100px"⟩,
      ⟨"format", .unionTy (.unionTy (.strLit "image/png") (.strLit "image/jpg"))
          (.strLit "image/webp"),
        "Which image format should be used? image/png, image/jpg, or image/webp"⟩,
      ⟨"quality", .ref "number",
        "What compression quality should be used for jpeg or webp, between 0 and 1"⟩] }

/-- Look a member up by name in a class declaration. -/
def lookupMember (c : ClassDecl) (n : String) : Option Member :=
  c.members.find? (fun m => m.name == n)

/-- The PackageCompatibilitySchema type alias of the BasePackage namespace
(BasePackage file lines 9-13), with the field meanings the class doc comment
of PackageCompatibility gives (lines 84-89). -/
def packageCompatibilitySchema : SchemaDecl :=
  { name := "BasePackage.PackageCompatibilitySchema", entries := [
      ⟨"minimum", .ref "fields.StringField",
        "The Package will not function before this version"⟩,
      ⟨"verified", .ref "fields.StringField",
        "Verified compatible up to this version"⟩,
      ⟨"maximum", .ref "fields.StringField",
        "The Package will not function after this version"⟩] }

/-- The PackageRelationshipsSchema type alias, BasePackage file lines 15-21. -/
def packageRelationshipsSchema : SchemaDecl :=
  { name := "BasePackage.PackageRelationshipsSchema", entries := [
      ⟨"systems", .ref "fields.SetField", ""⟩,
      ⟨"requires", .ref "fields.SetField", ""⟩,
      ⟨"recommends", .ref "fields.SetField", ""⟩,
      ⟨"conflicts", .ref "fields.SetField", ""⟩,
      ⟨"flags", .ref "fields.ObjectField", ""⟩] }

/-- The RelatedPackageSchema type alias, BasePackage file lines 23-29. -/
def relatedPackageSchema : SchemaDecl :=
  { name := "BasePackage.RelatedPackageSchema", entries := [
      ⟨"id", .ref "fields.StringField", ""⟩,
      ⟨"type", .ref "fields.StringField", ""⟩,
      ⟨"manifest", .ref "fields.StringField", ""⟩,
      ⟨"compatibility", .ref "PackageCompatibility", ""⟩,
      ⟨"reason", .ref "fields.StringField", ""⟩] }

/-- The PackageCompendiumFolderSchema type alias, BasePackage file lines
34-43, flattened at its recursion marker: the alias is a union of this field
record with a depth-guarded variant adding a folders SetField, transcribed
here as the field record together with the folders field. -/
def packageCompendiumFolderSchema : SchemaDecl :=
  { name := "BasePackage.PackageCompendiumFolderSchema", entries := [
      ⟨"name", .ref "fields.StringField", ""⟩,
      ⟨"sorting", .ref "fields.StringField", ""⟩,
      ⟨"color", .ref "fields.ColorField", ""⟩,
      ⟨"packs", .ref "fields.SetField", ""⟩,
      ⟨"folders", .ref "fields.SetField", ""⟩] }

/-- The Schema type alias of the BasePackage namespace, BasePackage file
lines 45-72, in source order. -/
def basePackageSchema : SchemaDecl :=
  { name := "BasePackage.Schema", entries := [
      ⟨"id", .ref "fields.StringField", ""⟩,
      ⟨"title", .ref "fields.StringField", ""⟩,
      ⟨"description", .ref "fields.StringField", ""⟩,
      ⟨"authors", .ref "fields.SetField", ""⟩,
      ⟨"url", .ref "fields.StringField", ""⟩,
      ⟨"license", .ref "fields.StringField", ""⟩,
      ⟨"readme", .ref "fields.StringField", ""⟩,
      ⟨"bugs", .ref "fields.StringField", ""⟩,
      ⟨"changelog", .ref "fields.StringField", ""⟩,
      ⟨"flags", .ref "fields.ObjectField", ""⟩,
      ⟨"media", .ref "fields.SetField", ""⟩,
      ⟨"version", .ref "fields.StringField", ""⟩,
      ⟨"compatibility", .ref "PackageCompatibility", ""⟩,
      ⟨"scripts", .ref "fields.SetField", ""⟩,
      ⟨"esmodules", .ref "fields.SetField", ""⟩,
      ⟨"styles", .ref "fields.SetField", ""⟩,
      ⟨"languages", .ref "fields.SetField", ""⟩,
      ⟨"packs", .ref "PackageCompendiumPacks", ""⟩,
      ⟨"packFolders", .ref "fields.SetField", ""⟩,
      ⟨"relationships", .ref "PackageRelationships", ""⟩,
      ⟨"socket", .ref "fields.BooleanField", ""⟩,
      ⟨"manifest", .ref "fields.StringField", ""⟩,
      ⟨"download", .ref "fields.StringField", ""⟩,
      ⟨"protected", .ref "fields.BooleanField", ""⟩,
      ⟨"exclusive", .ref "fields.BooleanField", ""⟩,
      ⟨"persistentStorage", .ref "fields.BooleanField", ""⟩] }

/-- The PackageManifestData type alias, BasePackage file lines 74-81. -/
def packageManifestDataSchema : SchemaDecl :=
  { name := "BasePackage.PackageManifestData", entries := [
      ⟨"availability", .ref "CONST.PACKAGE_AVAILABILITY_CODES", ""⟩,
      ⟨"locked", .ref "boolean", ""⟩,
      ⟨"exclusive", .ref "boolean", ""⟩,
      ⟨"owned", .ref "boolean", ""⟩,
      ⟨"tags", .ref "string[]", ""⟩,
      ⟨"hasStorage", .ref "boolean", ""⟩] }

/-- The custom SchemaField subclasses of the BasePackage file, lines 90-119:
each extends a fields.* base defined outside this repository and declares no
member of its own. -/
def packageCompatibilityClass : ClassDecl :=
  { name := "PackageCompatibility",
    heritage := .baseApp "fields.SchemaField"
      [.ref "BasePackage.PackageCompatibilitySchema"],
    members := [] }

/-- PackageRelationships, BasePackage file line 98. -/
def packageRelationshipsClass : ClassDecl :=
  { name := "PackageRelationships",
    heritage := .baseApp "fields.SchemaField"
      [.ref "BasePackage.PackageRelationshipsSchema"],
    members := [] }

/-- RelatedPackage, BasePackage file line 104. -/
def relatedPackageClass : ClassDecl :=
  { name := "RelatedPackage",
    heritage := .baseApp "fields.SchemaField"
      [.ref "BasePackage.RelatedPackageSchema"],
    members := [] }

/-- PackageCompendiumFolder, BasePackage file line 109. -/
def packageCompendiumFolderClass : ClassDecl :=
  { name := "PackageCompendiumFolder",
    heritage := .baseApp "fields.SchemaField"
      [.ref "BasePackage.PackageCompendiumFolderSchema<4>"],
    members := [] }

/-- CompendiumOwnershipField, BasePackage file line 114. -/
def compendiumOwnershipFieldClass : ClassDecl :=
  { name := "CompendiumOwnershipField",
    heritage := .baseApp "fields.ObjectField" [],
    members := [] }

/-- PackageCompendiumPacks, BasePackage file line 119. -/
def packageCompendiumPacksClass : ClassDecl :=
  { name := "PackageCompendiumPacks",
    heritage := .baseApp "fields.SetField" [],
    members := [] }

/-- The shared type of the logOptions parameter of the _migrate* helpers
(Parameters of BasePackage._logWarning at index 2). -/
def logWarningOptionsRef : TSType :=
  .ref "Parameters<typeof BasePackage._logWarning>[2]"

/-- A protected static migration helper of BasePackage taking data and
logOptions and returning void, as lines 261-277 declare six of. -/
def migrateHelper (n : String) : Member :=
  { sig n .method [pReq "data" (.ref "object"),
      pReq "logOptions" logWarningOptionsRef] (.ref "void") with
    isStatic := true, isProtected := true }

/-- Member list of the default-exported BasePackage class, transcribed in
source order from the BasePackage file lines 125-296. -/
def basePackageMembers : List Member := [
  { sig "availability" .fieldM [] (.ref "CONST.PACKAGE_AVAILABILITY_CODES") with
    doc := "An availability code in PACKAGE_AVAILABILITY_CODES which defines whether this package can be used." },
  { sig "locked" .fieldM [] (.ref "boolean") with
    doc := "A flag which tracks whether this package is currently locked. Default false." },
  { sig "exclusive" .fieldM [] (.ref "boolean") with
    doc := "A flag which tracks whether this package is a free Exclusive pack. Default false." },
  { sig "owned" .fieldM [] (.ref "boolean") with
    doc := "A flag which tracks whether this package is owned, if it is protected. Default false." },
  { sig "tags" .fieldM [] (.ref "string[]") with
    doc := "A set of Tags that indicate what kind of Package this is, provided by the Website." },
  { sig "type" .fieldM [] (.ref "CONST.PACKAGE_TYPES") with
    isStatic := true,
    doc := "Define the package type in CONST.PACKAGE_TYPES that this class represents. Each BasePackage subclass must define this attribute." },
  { sig "type" .getter [] (.ref "CONST.PACKAGE_TYPES") with
    doc := "The type of this package instance. A value in CONST.PACKAGE_TYPES." },
  { sig "name" .getter [] (.indexedThis "id") with
    doc := "The canonical identifier for this package. Deprecated: You are accessing BasePackage#name which is now deprecated in favor of id." },
  { sig "unavailable" .getter [] (.ref "boolean") with
    doc := "A flag which defines whether this package is unavailable to be used." },
  { sig "isIncompatibleWithCoreVersion" .method
      [pReq "availability" (.ref "CONST.PACKAGE_AVAILABILITY_CODES")]
      (.ref "boolean") with
    isStatic := true,
    doc := "Test if a given availability is incompatible with the core version." },
  { sig "collection" .getter []
      (.unionTy (.unionTy (.strLit "worlds") (.strLit "systems"))
        (.strLit "modules")) with
    isStatic := true,
    doc := "The named collection to which this package type belongs" },
  { sig "defineSchema" .method [] (.ref "BasePackage.Schema") with
    isStatic := true },
  { sig "testAvailability" .method
      [pReq "data" (.ref "Partial<BasePackage.PackageManifestData>"),
       pReq "options" (.inexactPartialOf (.objField "release" (.ref "ReleaseData")
          "A specific software release for which to test availability. Tests against the current release by default."))]
      (.ref "CONST.PACKAGE_AVAILABILITY_CODES") with isStatic := true },
  { sig "_testRequiredDependencies" .method
      [pReq "modulesCollection" (.ref "Collection<Module>")]
      (.promiseOf (.ref "boolean")) with
    doc := "Test that the dependencies of a package are satisfied as compatible. This method assumes that all packages in modulesCollection have already had their own availability tested. Returns whether all required dependencies are satisfied." },
  { sig "_testSupportedSystems" .method
      [pReq "systemCollection" (.ref "Collection<System>")]
      (.promiseOf (.ref "boolean")) with
    doc := "Test compatibility of the supported systems of a package." },
  { sig "testDependencyCompatibility" .method
      [pReq "compatibility" (.ref "PackageCompatibility"),
       pReq "dependency" (.ref "BasePackage")]
      (.ref "boolean") with
    isStatic := true,
    doc := "Determine if a dependency is within the given compatibility range." },
  { sig "cleanData" .method
      [pOpt "source" (.unionTy (.ref "object") (.ref "undefined")),
       pOpt "options" (.unionTy (.ref "fields.DataField.CleanOptions")
          (.ref "undefined"))]
      (.ref "object") with isStatic := true },
  { sig "validateId" .method [pReq "id" (.ref "string")] (.ref "void") with
    isStatic := true,
    doc := "Validate that a Package ID is allowed. Throws an error if the candidate ID is invalid." },
  { sig "_logWarning" .method
      [pReq "packageId" (.ref "string"), pReq "message" (.ref "string"),
       pReq "options" (.inexactPartialOf (.unionTy
          (.objField "installed" (.ref "unknown") "Is the package installed?")
          (.ref "LogCompatibilityWarningOptions")))]
      (.ref "any") with
    isStatic := true,
    isProtected := true,
    doc := "A wrapper around the default compatibility warning logger which handles some package-specific interactions. The source gives no return type annotation, so the return type is the implicit any." },
  { sig "migrateData" .method
      [pReq "data" (.ref "object"),
       pReq "logOptions" (.inexactPartialOf
          (.objField "installed" (.ref "boolean") ""))]
      (.ref "object") with isStatic := true },
  migrateHelper "_migrateNameToId",
  migrateHelper "_migrateDependenciesNameToId",
  migrateHelper "_migrateToRelationships",
  migrateHelper "_migrateCompatibility",
  migrateHelper "_migrateMediaURL",
  migrateHelper "_migrateOwnership",
  { sig "fromRemoteManifest" .method
      [pReq "manifestUrl" (.ref "string"),
       pReq "options" (.objField "strict" (.ref "boolean")
          "Whether to construct the remote package strictly. Default true.")]
      (.promiseOf .neverTy) with
    isStatic := true,
    doc := "Retrieve the latest Package manifest from a provided remote location. Returns a Promise which resolves to a constructed ServerPackage instance. Throws an error if the retrieved manifest data is invalid." }]

/-- The default-exported BasePackage class, BasePackage file line 125: it
extends the external DataModel applied to a SchemaField over its Schema. -/
def basePackageClass : ClassDecl :=
  { name := "BasePackage",
    heritage := .baseApp "DataModel"
      [.ref "fields.SchemaField<BasePackage.Schema>", .ref "null"],
    members := basePackageMembers }

/-- Every class the two source files declare. -/
def allClasses : List ClassDecl :=
  [sceneClass, packageCompatibilityClass, packageRelationshipsClass,
   relatedPackageClass, packageCompendiumFolderClass,
   compendiumOwnershipFieldClass, packageCompendiumPacksClass,
   basePackageClass]

/-- Every interface the two source files declare. -/
def allInterfaces : List InterfaceDecl :=
  [sceneDimensionsInterface, thumbnailCreationDataInterface]

/-- Every schema-shaped type alias the two source files declare. -/
def allSchemas : List SchemaDecl :=
  [packageCompatibilitySchema, packageRelationshipsSchema,
   relatedPackageSchema, packageCompendiumFolderSchema, basePackageSchema,
   packageManifestDataSchema]

/-- Every name the repository itself declares (classes, interfaces and type
aliases of both files). -/
def declaredNames : List String :=
  allClasses.map ClassDecl.name ++ allInterfaces.map InterfaceDecl.name ++
    allSchemas.map SchemaDecl.name

/-- Every member of every class the repository declares. -/
def allMembers : List Member := (allClasses.map ClassDecl.members).flatten

/-- The names a heritage clause refers to: the mixin and its argument for a
mixin application, the base reference otherwise. -/
def heritageBases : Heritage → List String
  | .mixinApp m b => [m, b]
  | .baseApp n _ => [n]

/-- The external bases the source files extend: the Scene mixin stack and
the DataModel / fields.* abstractions, all defined outside this repository. -/
def externalBases : List String :=
  ["ClientDocumentMixin", "foundry.documents.BaseScene", "DataModel",
   "fields.SchemaField", "fields.ObjectField", "fields.SetField"]

/-- Resolve a ReturnType-of-this-member type against a class declaration:
the declared return type of the named member when the class has one. -/
def resolveThisRet (c : ClassDecl) : TSType → TSType
  | .retOfThisMember n =>
    match lookupMember c n with
    | some m => m.retTy
    | none => .retOfThisMember n
  | t => t

/-- Substitute a type parameter by a type, structurally. -/
def substTVar (n : String) (v : TSType) : TSType → TSType
  | .tvar m => if m = n then v else .tvar m
  | .promiseOf t => .promiseOf (substTVar n v t)
  | .condExtends a b t f =>
      .condExtends (substTVar n v a) (substTVar n v b)
        (substTVar n v t) (substTVar n v f)
  | .objField fn t d => .objField fn (substTVar n v t) d
  | .interTy a b => .interTy (substTVar n v a) (substTVar n v b)
  | .unionTy a b => .unionTy (substTVar n v a) (substTVar n v b)
  | .inexactPartialOf t => .inexactPartialOf (substTVar n v t)
  | .deepPartialOf t => .deepPartialOf (substTVar n v t)
  | .optionalTy t => .optionalTy (substTVar n v t)
  | t => t

/-- Reduce a fully instantiated conditional type at the top level: once the
scrutinee is a concrete literal, `a extends b` holds exactly when the two
literals coincide, so the conditional picks its true or false branch. -/
def reduceCond : TSType → TSType
  | .condExtends a b t f => if a = b then t else f
  | t => t

/-- The declared result type of Scene.clone once its Save type parameter is
instantiated at a boolean literal. -/
def cloneResultTy (save : Bool) : Option TSType :=
  (lookupMember sceneClass "clone").map
    (fun m => reduceCond (substTVar "Save" (.boolLit save) m.retTy))

/-- The declared value type of a getter of a class. -/
def getterTy (c : ClassDecl) (n : String) : Option TSType :=
  (lookupMember c n).bind
    (fun m => if m.kind = .getter then some m.retTy else none)

/-- Read a getter of an instance.  An instance of a declared class is a map
from property names to values; a getter whose declared type is the indexed
access on this at property p yields exactly the value of p. -/
def readGetter {α : Type} (inst : String → α) (c : ClassDecl) (n : String) :
    Option α :=
  match getterTy c n with
  | some (.indexedThis p) => some (inst p)
  | _ => none

/-- The value type a Promise-typed declaration can fulfill with. -/
def promiseValueTy : TSType → Option TSType
  | .promiseOf t => some t
  | _ => none

/-- Denotation of the TypeScript types a fulfillment value can inhabit: the
never type has no values, boolean and string denote their Lean counterparts,
and every other type of the grammar is treated as an opaque one-point type
(which only makes uninhabitedness claims harder, never easier). -/
def tsDenote : TSType → Type
  | .neverTy => Empty
  | .ref "boolean" => Bool
  | .ref "string" => String
  | _ => Unit

/-- The type of values the promise returned by the named method of a class
could fulfill with, under `tsDenote`. -/
def fulfillmentTy (c : ClassDecl) (n : String) : Type :=
  match (lookupMember c n).bind (fun m => promiseValueTy m.retTy) with
  | some t => tsDenote t
  | none => Unit

/-- Modelled from the spec: the implementation of Scene.getDimensions is not
in this repository (the framework implements it); the repository carries only
the doc comment of scene.d.mts lines 80-84, which says that padding is
applied to enlarge the playable space and the result is rounded to the
nearest 2x grid size so that the padding buffer around the map always
contains whole grid spaces.  `roundToNearest x m` rounds x to the nearest
multiple of m, ties upward. -/
def roundToNearest (x m : Nat) : Nat := ((x + m / 2) / m) * m

/-- Modelled from the spec: the canvas extent of a scene along one axis.
`w` is the scene extent, `size` the grid size, and the padding fraction is
`padNum / padDen`; the total padding is the raw padding `w * padNum / padDen`
rounded to the nearest multiple of twice the grid size. -/
def paddedExtent (w size padNum padDen : Nat) : Nat :=
  w + roundToNearest (w * padNum / padDen) (2 * size)

/-- Modelled from the spec: the padding buffer on each side of the map, half
of the total padding the canvas extent adds to the scene extent. -/
def paddingBuffer (w size padNum padDen : Nat) : Nat :=
  (paddedExtent w size padNum padDen - w) / 2

/-! ## Theorems -/

/-- The rounding step always lands on a multiple of its grid. -/
theorem roundToNearest_dvd (x m : Nat) : m ∣ roundToNearest x m :=
  dvd_mul_left m ((x + m / 2) / m)

/-- Half of a rounded-to-2s quantity is a multiple of s. -/
theorem roundToNearest_half_dvd (x s : Nat) :
    s ∣ roundToNearest x (2 * s) / 2 := by
  obtain ⟨c, hc⟩ := roundToNearest_dvd x (2 * s)
  rw [hc, Nat.mul_assoc, Nat.mul_div_cancel_left _ (by norm_num : 0 < 2)]
  exact dvd_mul_right s c

/-- The rounding step is a nearest rounding: its result is within half a
grid step of its argument. -/
theorem roundToNearest_close (x m : Nat) (hm : 0 < m) :
    2 * Nat.dist (roundToNearest x m) x ≤ m := by
  have h1 : m * ((x + m / 2) / m) + (x + m / 2) % m = x + m / 2 :=
    Nat.div_add_mod _ _
  have h2 : (x + m / 2) % m < m := Nat.mod_lt _ hm
  unfold roundToNearest Nat.dist
  generalize hA : (x + m / 2) / m = A at *
  generalize hB : (x + m / 2) % m = B at *
  rw [Nat.mul_comm A m]
  generalize m * A = C at *
  omega

/-- Claim C1: the repository is declarations-only.  Every method, getter or
field member either source file declares carries no body, and every declared
class extends only bases from the external mixin / DataModel / fields.*
stack, none of which is a declaration of the repository itself. -/
theorem declarations_only :
    (allMembers.all (fun m => !m.hasBody)) = true ∧
    (allClasses.all (fun c => (heritageBases c.heritage).all
      (fun b => externalBases.contains b && !(declaredNames.contains b)))) =
      true := by
  decide

/-- Claim C2: the padding rule of Scene.getDimensions, modelled from its doc
comment (the implementation is not in this repository).  The canvas extent
enlarges the scene extent, the total padding added is a multiple of twice
the grid size, the per-side padding buffer is a whole number of grid spaces,
and the rounding is to the nearest such multiple: the canvas extent is
within one grid size of the raw padded extent. -/
theorem getDimensions_padding_rounds_to_grid (w s pn pd : Nat) (hs : 0 < s) :
    w ≤ paddedExtent w s pn pd ∧
    2 * s ∣ paddedExtent w s pn pd - w ∧
    s ∣ paddingBuffer w s pn pd ∧
    Nat.dist (paddedExtent w s pn pd) (w + w * pn / pd) ≤ s := by
  refine ⟨Nat.le_add_right w _, ?_, ?_, ?_⟩
  · show 2 * s ∣ w + roundToNearest (w * pn / pd) (2 * s) - w
    have e : w + roundToNearest (w * pn / pd) (2 * s) - w =
        roundToNearest (w * pn / pd) (2 * s) := by omega
    rw [e]
    exact roundToNearest_dvd _ _
  · show s ∣ (w + roundToNearest (w * pn / pd) (2 * s) - w) / 2
    have e : w + roundToNearest (w * pn / pd) (2 * s) - w =
        roundToNearest (w * pn / pd) (2 * s) := by omega
    rw [e]
    exact roundToNearest_half_dvd _ _
  · have h := roundToNearest_close (w * pn / pd) (2 * s) (by omega)
    show Nat.dist (w + roundToNearest (w * pn / pd) (2 * s))
        (w + w * pn / pd) ≤ s
    unfold Nat.dist at h ⊢
    omega

/-- Witness for the padding rule at a concrete scene: extent 1000, grid size
100, padding fraction 1/10; the canvas extent is 1200 and each side buffer
is one whole grid space. -/
theorem getDimensions_padding_rounds_to_grid_witness :
    1000 ≤ paddedExtent 1000 100 1 10 ∧
    2 * 100 ∣ paddedExtent 1000 100 1 10 - 1000 ∧
    100 ∣ paddingBuffer 1000 100 1 10 ∧
    Nat.dist (paddedExtent 1000 100 1 10) (1000 + 1000 * 1 / 10) ≤ 100 :=
  getDimensions_padding_rounds_to_grid 1000 100 1 10 (by decide)

/-- Claim C3: Scene.getDimensions is a bodiless signature declared to return
the SceneDimensions record, whose fields are exactly width, height, size,
rect, sceneX, sceneY, sceneWidth, sceneHeight, sceneRect, distance, ratio
and maxR; the dimensions property is declared as the ReturnType of
getDimensions on this, which resolves to that same SceneDimensions type. -/
theorem getDimensions_return_shape :
    sceneDimensionsInterface.fields.map FieldDecl.name =
      ["width", "height", "size", "rect", "sceneX", "sceneY", "sceneWidth",
       "sceneHeight", "sceneRect", "distance", "ratio", "maxR"] ∧
    (lookupMember sceneClass "getDimensions").map
        (fun m => (m.retTy, m.hasBody)) =
      some (.ref "SceneDimensions", false) ∧
    (lookupMember sceneClass "dimensions").map Member.retTy =
      some (.retOfThisMember "getDimensions") ∧
    (lookupMember sceneClass "dimensions").map
        (fun m => resolveThisRet sceneClass m.retTy) =
      some (.ref "SceneDimensions") :=
  ⟨rfl, rfl, rfl, rfl⟩

/-- Claim C4: Scene extends the mixin ClientDocumentMixin applied to the
abstract base foundry.documents.BaseScene, and neither the mixin nor the
base is among the names the repository declares. -/
theorem scene_mixin_base_external :
    sceneClass.heritage =
      .mixinApp "ClientDocumentMixin" "foundry.documents.BaseScene" ∧
    declaredNames.contains "ClientDocumentMixin" = false ∧
    declaredNames.contains "foundry.documents.BaseScene" = false ∧
    declaredNames.contains "BaseScene" = false :=
  ⟨rfl, rfl, rfl, rfl⟩

/-- Claim C5: Scene declares the getter thumbnail whose value is the indexed
access on this at thumb, the getter isView returning boolean, and the six
protected lifecycle hook overrides _preCreate, _onCreate, _preUpdate,
_onUpdate, _preDelete and _onDelete, each a bodiless signature. -/
theorem scene_getters_and_lifecycle_hooks :
    (lookupMember sceneClass "thumbnail").map
        (fun m => (m.kind, m.retTy, m.hasBody)) =
      some (.getter, .indexedThis "thumb", false) ∧
    (lookupMember sceneClass "isView").map
        (fun m => (m.kind, m.retTy, m.hasBody)) =
      some (.getter, .ref "boolean", false) ∧
    (["_preCreate", "_onCreate", "_preUpdate", "_onUpdate", "_preDelete",
      "_onDelete"].all (fun n =>
        match lookupMember sceneClass n with
        | some m => m.kind == .method && m.isProtected && m.isOverride &&
            !m.hasBody
        | none => false)) = true :=
  ⟨rfl, rfl, rfl⟩

/-- Claim C6: the compatibility sub-schema consists of exactly the three
string fields minimum, verified and maximum, with the documented meanings
(will not function before / verified up to / will not function after a
version), and the relationships sub-schema declares exactly the set fields
systems, requires, recommends and conflicts plus the object field flags. -/
theorem package_compatibility_and_relationships_schemas :
    packageCompatibilitySchema.entries.map (fun e => (e.name, e.ty)) =
      [("minimum", .ref "fields.StringField"),
       ("verified", .ref "fields.StringField"),
       ("maximum", .ref "fields.StringField")] ∧
    packageCompatibilitySchema.entries.map FieldDecl.doc =
      ["The Package will not function before this version",
       "Verified compatible up to this version",
       "The Package will not function after this version"] ∧
    packageRelationshipsSchema.entries.map (fun e => (e.name, e.ty)) =
      [("systems", .ref "fields.SetField"),
       ("requires", .ref "fields.SetField"),
       ("recommends", .ref "fields.SetField"),
       ("conflicts", .ref "fields.SetField"),
       ("flags", .ref "fields.ObjectField")] :=
  ⟨rfl, rfl, rfl⟩

/-- Claim C7: BasePackage declares the static bodiless method
testAvailability over data and options whose declared result is a
CONST.PACKAGE_AVAILABILITY_CODES value and whose optional release option is
documented to default to the current release, and the static bodiless method
migrateData over data and logOptions whose declared result is an object. -/
theorem availability_and_migration_signatures :
    (lookupMember basePackageClass "testAvailability").map
        (fun m => (m.isStatic, m.hasBody, m.retTy, m.params)) =
      some (true, false, .ref "CONST.PACKAGE_AVAILABILITY_CODES",
        [⟨"data", .ref "Partial<BasePackage.PackageManifestData>", false⟩,
         ⟨"options", .inexactPartialOf (.objField "release"
            (.ref "ReleaseData")
            "A specific software release for which to test availability. Tests against the current release by default."),
          false⟩]) ∧
    (lookupMember basePackageClass "migrateData").map
        (fun m => (m.isStatic, m.hasBody, m.retTy, m.params.map Param.name)) =
      some (true, false, .ref "object", ["data", "logOptions"]) :=
  ⟨rfl, rfl⟩

/-- Claim C8: the declared result of Scene.clone is governed by the Save
type parameter of its context save option: instantiated at true it is a
Promise of this, instantiated at false - the declared default of Save, with
createData and context both optional - it is this itself, with no Promise. -/
theorem clone_result_depends_on_save :
    cloneResultTy true = some (.promiseOf .thisTy) ∧
    cloneResultTy false = some .thisTy ∧
    (lookupMember sceneClass "clone").map Member.tparams =
      some [⟨"Save", .ref "boolean", some (.boolLit false)⟩] ∧
    (lookupMember sceneClass "clone").map
        (fun m => m.params.map Param.optional) =
      some [true, true] :=
  ⟨rfl, rfl, rfl, rfl⟩

/-- Claim C9: the deprecated name getter of BasePackage is declared to yield
exactly the indexed access on this at id, so on any instance - any map from
property names to values - reading name yields exactly the value of the
canonical identifier id. -/
theorem name_getter_aliases_id :
    getterTy basePackageClass "name" = some (.indexedThis "id") ∧
    ∀ (α : Type) (inst : String → α),
      readGetter inst basePackageClass "name" = some (inst "id") :=
  ⟨rfl, fun _ _ => rfl⟩

/-- Claim C10: BasePackage.fromRemoteManifest is declared to return a
Promise of never, whose fulfillment type is uninhabited - the promise can
never fulfill with a value of the declared type - even though the doc
comment says it resolves to a constructed ServerPackage instance. -/
theorem fromRemoteManifest_promise_never_fulfills :
    (lookupMember basePackageClass "fromRemoteManifest").map Member.retTy =
      some (.promiseOf .neverTy) ∧
    IsEmpty (fulfillmentTy basePackageClass "fromRemoteManifest") ∧
    (lookupMember basePackageClass "fromRemoteManifest").map Member.doc =
      some "Retrieve the latest Package manifest from a provided remote location. Returns a Promise which resolves to a constructed ServerPackage instance. Throws an error if the retrieved manifest data is invalid." := by
  refine ⟨rfl, ?_, rfl⟩
  have h : fulfillmentTy basePackageClass "fromRemoteManifest" = Empty := rfl
  rw [h]
  exact ⟨fun v => v.elim⟩
